import Mathlib

/-!
Shallow embedding of the fluxus-netmiko-functions repository: the driver
registry and dispatcher (`dispatcher.py`), the default driver operations
(`drivers/default.py`), the state collector (`tasks/collect_stateful_commands.py`),
the configuration collector (`tasks/collect_device_config.py`) and the file
sink (`utils.py`).  Python dictionaries are modelled as association lists with
Python's lookup/pop/set semantics, transport outcomes as explicit inductive
values, and exceptions as `Except` errors.
-/

namespace Fluxus

/-! ### Python dictionary primitives (string-valued dicts as association lists) -/

/-- A Python dict with string keys and string values, as an ordered
association list (insertion order, unique keys by construction). -/
abbrev PyDict := List (String × String)

/-- `d.get(k)` / `d[k]` lookup: the first (unique) binding of `k`. -/
def pyGet (d : PyDict) (k : String) : Option String :=
  match d with
  | [] => none
  | p :: ps => if p.1 == k then some p.2 else pyGet ps k

/-- `k in d` membership test. -/
def pyContains (d : PyDict) (k : String) : Bool :=
  match d with
  | [] => false
  | p :: ps => p.1 == k || pyContains ps k

/-- `d.pop(k)` (the removal part): drop the binding of `k`. -/
def pyRemove (d : PyDict) (k : String) : PyDict :=
  match d with
  | [] => []
  | p :: ps => if p.1 == k then ps else p :: pyRemove ps k

/-- `d[k] = v`: update in place when `k` is present, else append at the end
(Python dicts preserve insertion order). -/
def pySet (d : PyDict) (k v : String) : PyDict :=
  match d with
  | [] => [(k, v)]
  | p :: ps => if p.1 == k then (k, v) :: ps else p :: pySet ps k v

/-- Splits a character list at newline characters; `acc` holds the current
piece reversed.  Produces the pieces of `str.split("\n")`, trailing empty
piece included. -/
def splitNlAux : List Char → List Char → List String
  | [], acc => [String.mk acc.reverse]
  | c :: cs, acc =>
      if c = '\n' then String.mk acc.reverse :: splitNlAux cs []
      else splitNlAux cs (c :: acc)

/-- Python's `str.splitlines()` (newline-only form): no trailing empty piece
when the string ends in a newline, and `[]` on the empty string. -/
def pySplitlines (s : String) : List String :=
  if s.data = [] then []
  else if s.data.getLast? = some '\n' then (splitNlAux s.data []).dropLast
  else splitNlAux s.data []

/-- Occurrence of one character list inside another (some suffix starts with it). -/
def charsContain (p : List Char) : List Char → Bool
  | [] => p.isEmpty
  | c :: cs => p.isPrefixOf (c :: cs) || charsContain p cs

/-- Python's `sub in s` substring test, on the underlying character lists. -/
def pyInStr (sub s : String) : Bool :=
  charsContain sub.data s.data

/-! ### `dispatcher.py`: driver registry and dispatch -/

/-- `_DEFAULT_DRIVERS_MAPPING`, the built-in platform-to-driver table
(verbatim from the source, including the `fluxus_netmikto_functions`
spelling of the module paths). -/
def defaultDriversMapping : PyDict :=
  [("default", "fluxus_netmikto_functions.drivers.default.NetboxNornirDriver"),
   ("default_netmiko", "fluxus_netmikto_functions.drivers.default.NetmikoNetboxNornirDriver"),
   ("arista_eos", "fluxus_netmikto_functions.drivers.arista_eos.NetboxNornirDriver"),
   ("cisco_aireos", "fluxus_netmikto_functions.drivers.cisco_aireos.NetboxNornirDriver"),
   ("cisco_asa", "fluxus_netmikto_functions.drivers.cisco_asa.NetboxNornirDriver"),
   ("cisco_ios", "fluxus_netmikto_functions.drivers.cisco_ios.NetboxNornirDriver"),
   ("cisco_ios_restconf", "fluxus_netmikto_functions.drivers.cisco_ios_restconf.NetboxNornirDriver"),
   ("cisco_nxos", "fluxus_netmikto_functions.drivers.cisco_nxos.NetboxNornirDriver"),
   ("cisco_wlc", "fluxus_netmikto_functions.drivers.cisco_wlc.NetboxNornirDriver"),
   ("cisco_xr", "fluxus_netmikto_functions.drivers.cisco_ios_xr.NetboxNornirDriver"),
   ("fortinet_fortios", "fluxus_netmikto_functions.drivers.fortinet_fortios.NetboxNornirDriver"),
   ("juniper_junos", "fluxus_netmikto_functions.drivers.juniper_junos.NetboxNornirDriver"),
   ("netscaler", "fluxus_netmikto_functions.drivers.netscaler.NetboxNornirDriver"),
   ("paloalto_panos", "fluxus_netmikto_functions.drivers.paloalto_panos.NetboxNornirDriver")]

/-- The mapping actually used by `dispatcher`: the
`kwargs.get("default_drivers_mapping")` truthiness test means a supplied but
empty overrides dict is ignored and the built-in table is used. -/
def effectiveMapping (overrides : Option PyDict) : PyDict :=
  match overrides with
  | some m => if m.isEmpty then defaultDriversMapping else m
  | none => defaultDriversMapping

/-- Driver resolution step of `dispatcher` (dispatcher.py lines 39-57):
`driver = default_drivers_mapping.get(task.host.platform)`, then
`if not driver: raise FluxusNetmikoException(...)`.  There is no lookup of
the `"default"` key. -/
def resolveDriver (overrides : Option PyDict) (method platform : String) : Except String String :=
  let mapping := effectiveMapping overrides
  match pyGet mapping platform with
  | some d =>
      if d = "" then
        Except.error ("Unable to find the driver for " ++ method ++ " for platform: "
          ++ platform ++ ", preemptively failed.")
      else Except.ok d
  | none =>
      Except.error ("Unable to find the driver for " ++ method ++ " for platform: "
        ++ platform ++ ", preemptively failed.")

/-- Outcome of `task.run(task=driver_task, ...)` inside `dispatcher`: either
the sub-task raises `NornirSubTaskError` carrying `exc.result[0].result`
as its textual output, or it returns the driver's result. -/
inductive SubtaskOutcome (α : Type) where
  | raises (output : String)
  | returns (r : α)
  deriving Repr

/-- Errors the dispatcher can terminate with. -/
inductive DispatchErr where
  | driverNotFound (msg : String)
  | methodNotFound (msg : String)
  | subtaskFailed (msg : String)
  | indexError
  deriving Repr, DecidableEq

/-- The dispatcher's final `Result(host=task.host, result=result, error=error)`. -/
structure DispResult (α : Type) where
  result : Option α
  error : Option String
  deriving Repr

/-- `dispatcher` (dispatcher.py lines 29-97), abstracting the resolved driver
class as its list of capability names `methods` and the invoked sub-task's
behaviour as `runOutcome`.  On `NornirSubTaskError` it raises
`FluxusNetmikoException("Subtask failed: " ++ last line)`; the `[-1]` index
on an empty `splitlines()` result is Python's `IndexError`. -/
def dispatcher (α : Type) (overrides : Option PyDict) (platform : String)
    (methods : List String) (method : String)
    (runOutcome : SubtaskOutcome α) : Except DispatchErr (DispResult α) :=
  match resolveDriver overrides method platform with
  | Except.error e => Except.error (DispatchErr.driverNotFound e)
  | Except.ok driver =>
      if method ∈ methods then
        match runOutcome with
        | SubtaskOutcome.returns r => Except.ok ⟨some r, none⟩
        | SubtaskOutcome.raises output =>
            match (pySplitlines output).getLast? with
            | some lastLine =>
                Except.error (DispatchErr.subtaskFailed ("Subtask failed: " ++ lastLine))
            | none => Except.error DispatchErr.indexError
      else
        Except.error (DispatchErr.methodNotFound
          ("Unable to locate the method " ++ method ++ " for " ++ driver ++ ", preemptively failed."))

/-! ### `drivers/default.py`: the default Netmiko driver -/

/-- Classification of the exception carried by a `NornirSubTaskError` from
`netmiko_send_command` / `netmiko_send_config`. -/
inductive ExcKind where
  | auth
  | timeout
  | other
  deriving Repr, DecidableEq

/-- Outcome of `task.run(task=netmiko_send_command, ...)`: either it raises
`NornirSubTaskError` (with the exception's message and the sub-result's raw
output text), or it returns, with `result[0].result = text` and
`result[0].failed = failed`. -/
inductive SendOutcome where
  | raises (kind : ExcKind) (message : String) (output : String)
  | returns (text : String) (failed : Bool)
  deriving Repr, DecidableEq

/-- `RUN_COMMAND_MAPPING` from drivers/default.py. -/
def runCommandMapping : PyDict :=
  [("default", "show run"),
   ("arista_eos", "show run"),
   ("cisco_aireos", "show run-config commands"),
   ("cisco_nxos", "show run"),
   ("cisco_ios", "show run"),
   ("cisco_wlc", "show running-config"),
   ("cisco_xr", "show run"),
   ("juniper_junos", "show configuration | display set"),
   ("netscaler", "show run")]

/-- `RUN_COMMAND_MAPPING.get(platform, RUN_COMMAND_MAPPING["default"])`. -/
def getConfigCommand (platform : String) : String :=
  (pyGet runCommandMapping platform).getD "show run"

/-- Errors raised by `get_config` (all `OptiNetworkAutomationException` in the
source, distinguished here by the failure class of their message). -/
inductive GetConfigErr where
  | authError (msg : String)
  | timeoutError (msg : String)
  | unknownError (msg : String)
  | commandRejected (msg : String)
  deriving Repr, DecidableEq

/-- Successful returns of `get_config`: the normal `{"config": text}` result,
or the early pass-through of the raw sub-result when `result[0].failed`. -/
inductive GetConfigOk where
  | config (text : String)
  | passthrough (text : String)
  deriving Repr, DecidableEq

/-- The device syntax-error marker checked by `get_config`. -/
def invalidMarker : String := "ERROR: % Invalid input detected at"

/-- `NetboxNornirDriver.get_config` (drivers/default.py lines 36-91), with the
transport abstracted as a map from the command sent to its outcome. -/
def get_config (platform : String) (transport : String → SendOutcome) :
    Except GetConfigErr GetConfigOk :=
  let command := getConfigCommand platform
  match transport command with
  | SendOutcome.raises ExcKind.auth msg _ =>
      Except.error (GetConfigErr.authError ("Failed with an authentication issue: `" ++ msg ++ "`"))
  | SendOutcome.raises ExcKind.timeout msg _ =>
      Except.error (GetConfigErr.timeoutError ("Failed with a timeout issue. `" ++ msg ++ "`"))
  | SendOutcome.raises ExcKind.other msg _ =>
      Except.error (GetConfigErr.unknownError ("Failed with an unknown issue. `" ++ msg ++ "`"))
  | SendOutcome.returns text failed =>
      if failed then Except.ok (GetConfigOk.passthrough text)
      else if pyInStr invalidMarker text then
        Except.error (GetConfigErr.commandRejected
          "Discovered `ERROR: % Invalid input detected at` in the output")
      else Except.ok (GetConfigOk.config text)

/-- The `{"status": ..., "error": ...}` result dict of `deploy_config`. -/
structure DeployResult where
  status : Bool
  error : Option String
  deriving Repr, DecidableEq

/-- `NetboxNornirDriver.deploy_config` (drivers/default.py lines 94-137): the
config string is split into command lines, the batch is sent once, and every
`NornirSubTaskError` branch returns `{"status": False, "error": str(exc)}`
instead of raising. -/
def deploy_config (config : String) (transport : List String → SendOutcome) : DeployResult :=
  let config_commands := pySplitlines config
  match transport config_commands with
  | SendOutcome.raises ExcKind.auth msg _ => ⟨false, some msg⟩
  | SendOutcome.raises ExcKind.timeout msg _ => ⟨false, some msg⟩
  | SendOutcome.raises ExcKind.other msg _ => ⟨false, some msg⟩
  | SendOutcome.returns _ _ => ⟨true, none⟩

/-- The result dict of `wait_until_reachable`: the source builds
`{"status": True}` or `{"status": False}` with no `"error"` key at all,
modelled as `error = none` in both cases. -/
structure ReachResult where
  status : Bool
  error : Option String
  deriving Repr, DecidableEq

/-- The polling loop of `wait_until_reachable`, one second per iteration:
`ping t` is the reachability probe at second `t`, `fuel` the seconds left
until `start_time + timeout`. -/
def waitLoop (ping : Nat → Bool) : Nat → Nat → ReachResult
  | 0, _ => ⟨false, none⟩
  | fuel + 1, t => if ping t then ⟨true, none⟩ else waitLoop ping fuel (t + 1)

/-- `NetboxNornirDriver.wait_until_reachable` (drivers/default.py lines
140-164), discretised to one probe per second. -/
def wait_until_reachable (ping : Nat → Bool) (timeout : Nat) : ReachResult :=
  waitLoop ping timeout 0

/-- Outcome of the two sends inside `reload_device`: both succeed, or a
`NornirSubTaskError`, or some other exception. -/
inductive ReloadOutcome where
  | ok (outputReload outputConfirm : String)
  | subtaskErr (msg : String)
  | otherErr (msg : String)
  deriving Repr, DecidableEq

/-- The `{"status", "error", "output"}` result dict of `reload_device`. -/
structure ReloadResult where
  status : Bool
  error : Option String
  output : Option String
  deriving Repr, DecidableEq

/-- `NetboxNornirDriver.reload_device` (drivers/default.py lines 167-229):
success concatenates both outputs; both exception handlers capture the
message into `{"status": False, "error": str(e)}` rather than raising. -/
def reload_device (outcome : ReloadOutcome) : ReloadResult :=
  match outcome with
  | ReloadOutcome.ok o1 o2 => ⟨true, none, some (o1 ++ "\n" ++ o2)⟩
  | ReloadOutcome.subtaskErr msg => ⟨false, some msg, none⟩
  | ReloadOutcome.otherErr msg => ⟨false, some msg, none⟩

/-! ### `tasks/collect_stateful_commands.py`: the state collector -/

/-- One entry of a host's `commands` list:
`{"command": ..., "ignore_columns": [...]}`. -/
structure CommandSpec where
  command : String
  ignore_columns : List String
  deriving Repr, DecidableEq

/-- `process_structured_output` on one record (the dict case and the per-item
body of the list case, lines 19-31): for each `key` of `ignore_columns` in
order, `item["__" + key] = item.pop(key)` when `key` is present. -/
def processRecord (ignore_columns : List String) (item : PyDict) : PyDict :=
  ignore_columns.foldl
    (fun it key =>
      if pyContains it key then
        pySet (pyRemove it key) ("__" ++ key) ((pyGet it key).getD "")
      else it)
    item

/-- `process_structured_output` on a parsed list of records. -/
def processStructured (ignore_columns : List String) (records : List PyDict) : List PyDict :=
  records.map (processRecord ignore_columns)

/-- Outcome of one loop iteration's `try` body in `get_device_state`: either
some exception is raised (by `task.run` or by the TextFSM parse), or the send
returns `text` with failure flag `failed` and the parse yields `parsed`. -/
inductive StepOutcome where
  | raise (err : String)
  | ok (text : String) (failed : Bool) (parsed : List PyDict)
  deriving Repr, DecidableEq

/-- Whether a step ran to the end of the loop body without an exception. -/
def stepSucceeds : StepOutcome → Bool
  | StepOutcome.raise _ => false
  | StepOutcome.ok _ _ _ => true

/-- One appended element of `results` (lines 76-84): `structured` is the
processed parse output under Python truthiness (an empty list is stored as
`None`), `unstructured` the raw text unless the sub-result failed. -/
structure CommandResult where
  cmd : String
  structured : Option (List PyDict)
  unstructured : Option String
  deriving Repr, DecidableEq

/-- Builds the dict appended to `results` for one successful iteration. -/
def mkCommandResult (spec : CommandSpec) (text : String) (failed : Bool)
    (parsed : List PyDict) : CommandResult :=
  let processed := processStructured spec.ignore_columns parsed
  { cmd := spec.command
    structured := if processed.isEmpty then none else some processed
    unstructured := if failed then none else some text }

/-- The per-host result of `get_device_state`: the serialised `results` list
on success, or the `{"status": False, "error": ...}` dict on failure. -/
inductive HostOutcome where
  | success (results : List CommandResult)
  | failure (error : String)
  deriving Repr, DecidableEq

/-- The command loop of `get_device_state` (lines 57-95), with each command
paired with its execution outcome; `acc` is the `results` accumulator.  An
exception in any iteration returns the failed host result immediately. -/
def gdsGo : List (CommandSpec × StepOutcome) → List CommandResult → HostOutcome
  | [], acc => HostOutcome.success acc
  | (spec, out) :: rest, acc =>
      match out with
      | StepOutcome.raise err => HostOutcome.failure err
      | StepOutcome.ok text failed parsed =>
          gdsGo rest (acc ++ [mkCommandResult spec text failed parsed])

/-- `get_device_state` (tasks/collect_stateful_commands.py lines 34-103),
with the host's resolved command list zipped with the per-command outcomes. -/
def get_device_state (items : List (CommandSpec × StepOutcome)) : HostOutcome :=
  gdsGo items []

/-- Command-list resolution at lines 53-55: `host.data.get("commands", [])`,
falling back to `host.data.get("config_context", {}).get("commands", [])`
when the first list is empty (Python truthiness). -/
def resolveCommands (hostCommands configContextCommands : List CommandSpec) : List CommandSpec :=
  if hostCommands.isEmpty then configContextCommands else hostCommands

/-! ### `tasks/collect_device_config.py`: the configuration collector -/

/-- Outcome of `task.run(task=dispatcher, method="get_config")[1]` inside
`sub_collect_device_configuration`: the driver's result dict, or a
`NornirSubTaskError`, or some other exception. -/
inductive CollectOutcome where
  | got (res : PyDict)
  | subtaskErr (innerExc : String)
  | otherExc (msg : String)
  deriving Repr, DecidableEq

/-- The `{"status", "error", "config"}` result of
`sub_collect_device_configuration`. -/
structure CollectResult where
  status : Bool
  error : Option String
  config : Option String
  deriving Repr, DecidableEq

/-- Python truthiness of `result.get("config")`: absent or empty is falsy. -/
def pyTruthy : Option String → Bool
  | none => false
  | some s => !(s == "")

/-- `sub_collect_device_configuration` (tasks/collect_device_config.py lines
17-52).  A truthy `result.get("config")` yields success; otherwise
`result["error"]` is read, and a missing key is Python's `KeyError("error")`
whose `str` is `"'error'"`, caught by the outer `except Exception` handler.
The `NornirSubTaskError` branch calls `log_nornir_sub_exception`, which
re-raises the stored exception (utils.py lines 22-25), so no result is
produced on that path. -/
def sub_collect_device_configuration (outcome : CollectOutcome) :
    Except String CollectResult :=
  match outcome with
  | CollectOutcome.got res =>
      if pyTruthy (pyGet res "config") then
        Except.ok ⟨true, none, some ((pyGet res "config").getD "")⟩
      else
        match pyGet res "error" with
        | some e => Except.ok ⟨false, some e, none⟩
        | none => Except.ok ⟨false, some "'error'", none⟩
  | CollectOutcome.subtaskErr innerExc => Except.error innerExc
  | CollectOutcome.otherExc msg => Except.ok ⟨false, some msg, none⟩

/-! ### `utils.py` and the result sink of `collect_stateful_commands` -/

/-- Content of a written file: plain text (`write_to_file`) or a JSON dump of
records (`write_json_to_file`). -/
inductive FileData where
  | text (s : String)
  | json (records : List PyDict)
  deriving Repr, DecidableEq

/-- The filesystem as a map from path to file content. -/
abbrev FS := String → Option FileData

/-- `write_to_file` / `write_json_to_file` (utils.py lines 6-19): parent
directories are created implicitly and an existing file of the same path is
overwritten (`open(file_path, "w")`). -/
def writeFile (fs : FS) (path : String) (data : FileData) : FS :=
  fun q => if q = path then some data else fs q

/-- Python truthiness of the `structured` field as tested by
`if command["structured"]:`. -/
def truthyStructured : Option (List PyDict) → Bool
  | none => false
  | some l => !l.isEmpty

/-- Python truthiness of the `unstructured` field as tested by
`if command["unstructured"]:`. -/
def truthyUnstructured : Option String → Bool
  | none => false
  | some s => s ≠ ""

/-- Path of the structured output file,
`os.path.join(output_folder, "state", host, host + "__" + cmd.replace(" ", "_") + ".json")`. -/
def jsonPath (folder host cmd : String) : String :=
  folder ++ "/state/" ++ host ++ "/" ++ host ++ "__" ++ cmd.replace " " "_" ++ ".json"

/-- Path of the unstructured output file (same convention, `.output`). -/
def outputPath (folder host cmd : String) : String :=
  folder ++ "/state/" ++ host ++ "/" ++ host ++ "__" ++ cmd.replace " " "_" ++ ".output"

/-- The writes issued for one host's command results by the output loop of
`collect_stateful_commands` (lines 131-153), in program order. -/
def hostWrites (folder host : String) (results : List CommandResult) :
    List (String × FileData) :=
  results.flatMap (fun cr =>
    (if truthyStructured cr.structured then
      [(jsonPath folder host cr.cmd, FileData.json (cr.structured.getD []))]
     else [])
    ++
    (if truthyUnstructured cr.unstructured then
      [(outputPath folder host cr.cmd, FileData.text (cr.unstructured.getD ""))]
     else []))

/-- All writes issued for a fleet result, host by host in iteration order. -/
def fleetWrites (folder : String) (fleet : List (String × List CommandResult)) :
    List (String × FileData) :=
  fleet.flatMap (fun hr => hostWrites folder hr.1 hr.2)

/-- Applies a sequence of overwriting file writes in order. -/
def applyWrites (writes : List (String × FileData)) (fs : FS) : FS :=
  writes.foldl (fun fs w => writeFile fs w.1 w.2) fs

/-- The result sink of `collect_stateful_commands` with `output=True`:
performs every per-host structured/unstructured write in program order. -/
def persist (folder : String) (fleet : List (String × List CommandResult)) (fs : FS) : FS :=
  applyWrites (fleetWrites folder fleet) fs

/-! ### Specification-side helper definitions -/

/-- Specification of the ignore-columns transformation as a pointwise lookup:
a rename target `"__" ++ k` reads the original value of `k`, a renamed key
reads nothing, and every other key is untouched.  Used to state the amended
form of the ignore-columns claim. -/
def renameLookup (S : List String) (item : PyDict) (j : String) : Option String :=
  if j ∈ S then none
  else
    Option.elim (S.find? (fun k => ("__" ++ k) == j)) (pyGet item j)
      (fun k => if pyContains item k then pyGet item k else pyGet item j)

/-- The `(status, error)` pair surfaced by a host outcome of
`get_device_state`: a failure surfaces `{"status": False, "error": err}`,
a success surfaces the serialised command-result list (no status pair). -/
def hostStatusError : HostOutcome → Option (Bool × Option String)
  | HostOutcome.failure e => some (false, some e)
  | HostOutcome.success _ => none

/-- The Host Result invariant of the data model: a true status carries a null
error and a surfaced terminal failure carries a non-null error. -/
def invariantSE (status : Bool) (error : Option String) : Prop :=
  (status = true → error = none) ∧ (status = false → error ≠ none)

/-- The last write to path `p` in a write sequence, if any. -/
def lastWrite : List (String × FileData) → String → Option FileData
  | [], _ => none
  | w :: ws, p =>
      match lastWrite ws p with
      | some d => some d
      | none => if w.1 == p then some w.2 else none

/-! ### Basic lemmas about the dict model -/

theorem pyGet_pySet (d : PyDict) (k v j : String) :
    pyGet (pySet d k v) j = if j = k then some v else pyGet d j := by
  induction d with
  | nil =>
      by_cases h : j = k
      · subst h
        simp [pySet, pyGet]
      · simp [pySet, pyGet, h, Ne.symm h]
  | cons p ps ih =>
      by_cases hpk : p.1 = k
      · by_cases hj : j = k
        · subst hj
          simp [pySet, pyGet, hpk]
        · have hpj : p.1 ≠ j := fun h => hj (h.symm.trans hpk)
          simp [pySet, pyGet, hpk, hj, Ne.symm hj, hpj]
      · by_cases hj : p.1 = j
        · have hjk : j ≠ k := fun h => hpk (hj.trans h)
          simp [pySet, pyGet, hpk, hj, hjk]
        · simp [pySet, pyGet, hpk, hj, ih]

theorem pyGet_pyRemove (d : PyDict) (k j : String) (hne : j ≠ k) :
    pyGet (pyRemove d k) j = pyGet d j := by
  induction d with
  | nil => rfl
  | cons p ps ih =>
      by_cases hpk : p.1 = k
      · have hpj : p.1 ≠ j := fun h => hne (h.symm.trans hpk)
        simp [pyRemove, pyGet, hpk, hpj, Ne.symm hne]
      · by_cases hpj : p.1 = j
        · simp [pyRemove, pyGet, hpk, hpj, hne]
        · simp [pyRemove, pyGet, hpk, hpj, ih]

theorem pyGet_eq_none_of_not_mem_keys {d : PyDict} {k : String}
    (h : k ∉ d.map Prod.fst) : pyGet d k = none := by
  induction d with
  | nil => rfl
  | cons p ps ih =>
      simp only [List.map_cons, List.mem_cons, not_or] at h
      have hpk : p.1 ≠ k := fun hh => h.1 hh.symm
      simp only [pyGet, beq_iff_eq, if_neg hpk]
      exact ih h.2

theorem pyGet_pyRemove_self (d : PyDict) (k : String) (hnd : (d.map Prod.fst).Nodup) :
    pyGet (pyRemove d k) k = none := by
  induction d with
  | nil => rfl
  | cons p ps ih =>
      simp only [List.map_cons, List.nodup_cons] at hnd
      by_cases hpk : p.1 = k
      · simp only [pyRemove, beq_iff_eq, if_pos hpk]
        exact pyGet_eq_none_of_not_mem_keys (hpk ▸ hnd.1)
      · simp only [pyRemove, beq_iff_eq, if_neg hpk, pyGet, if_neg hpk]
        exact ih hnd.2

theorem pyContains_eq_isSome (d : PyDict) (k : String) :
    pyContains d k = (pyGet d k).isSome := by
  induction d with
  | nil => rfl
  | cons p ps ih =>
      by_cases hpk : p.1 = k <;> simp [pyContains, pyGet, hpk, ih]

theorem pyGet_isSome_of_contains {d : PyDict} {k : String}
    (h : pyContains d k = true) : ∃ v, pyGet d k = some v := by
  rw [pyContains_eq_isSome] at h
  exact Option.isSome_iff_exists.mp h

theorem pyGet_eq_none_of_not_contains {d : PyDict} {k : String}
    (h : pyContains d k = false) : pyGet d k = none := by
  rw [pyContains_eq_isSome] at h
  cases hg : pyGet d k with
  | none => rfl
  | some v => rw [hg] at h; simp at h

theorem mem_keys_pySet {d : PyDict} {k v x : String}
    (h : x ∈ (pySet d k v).map Prod.fst) : x ∈ d.map Prod.fst ∨ x = k := by
  induction d with
  | nil =>
      simp only [pySet, List.map_cons, List.map_nil, List.mem_singleton] at h
      exact Or.inr h
  | cons p ps ih =>
      by_cases hpk : p.1 = k
      · simp only [pySet, beq_iff_eq, if_pos hpk, List.map_cons, List.mem_cons] at h
        rcases h with h | h
        · exact Or.inr h
        · refine Or.inl ?_
          simp only [List.map_cons, List.mem_cons]
          exact Or.inr h
      · simp only [pySet, beq_iff_eq, if_neg hpk, List.map_cons, List.mem_cons] at h
        rcases h with h | h
        · refine Or.inl ?_
          simp only [List.map_cons, List.mem_cons]
          exact Or.inl h
        · rcases ih h with h2 | h2
          · refine Or.inl ?_
            simp only [List.map_cons, List.mem_cons]
            exact Or.inr h2
          · exact Or.inr h2

theorem keys_nodup_pySet {d : PyDict} {k v : String}
    (hnd : (d.map Prod.fst).Nodup) : ((pySet d k v).map Prod.fst).Nodup := by
  induction d with
  | nil => simp [pySet]
  | cons p ps ih =>
      simp only [List.map_cons, List.nodup_cons] at hnd
      by_cases hpk : p.1 = k
      · simp only [pySet, beq_iff_eq, if_pos hpk, List.map_cons, List.nodup_cons]
        exact ⟨hpk ▸ hnd.1, hnd.2⟩
      · simp only [pySet, beq_iff_eq, if_neg hpk, List.map_cons, List.nodup_cons]
        refine ⟨?_, ih hnd.2⟩
        intro hmem
        rcases mem_keys_pySet hmem with h | h
        · exact hnd.1 h
        · exact hpk h

theorem keys_pyRemove_sublist (d : PyDict) (k : String) :
    ((pyRemove d k).map Prod.fst).Sublist (d.map Prod.fst) := by
  induction d with
  | nil => simp [pyRemove]
  | cons p ps ih =>
      by_cases hpk : p.1 = k
      · simp only [pyRemove, beq_iff_eq, if_pos hpk, List.map_cons]
        exact List.sublist_cons_of_sublist p.1 (List.Sublist.refl _)
      · simp only [pyRemove, beq_iff_eq, if_neg hpk, List.map_cons]
        exact List.Sublist.cons₂ p.1 ih

theorem keys_nodup_pyRemove {d : PyDict} {k : String}
    (hnd : (d.map Prod.fst).Nodup) : ((pyRemove d k).map Prod.fst).Nodup :=
  hnd.sublist (keys_pyRemove_sublist d k)

theorem string_append_left_cancel {s a b : String} (h : s ++ a = s ++ b) : a = b := by
  have hd : s.data ++ a.data = s.data ++ b.data := by
    have h2 := congrArg String.data h
    simpa [String.data_append] using h2
  have h3 : a.data = b.data := List.append_cancel_left hd
  cases a with
  | mk la =>
      cases b with
      | mk lb =>
          simp only at h3
          exact congrArg String.mk h3

theorem string_ne_prefix_append (s k : String) (hs : s ≠ "") : s ++ k ≠ k := by
  intro h
  have hlen : (s ++ k).length = k.length := congrArg String.length h
  rw [String.length_append] at hlen
  have hz : s.length = 0 := by omega
  apply hs
  cases s with
  | mk l =>
      cases l with
      | nil => rfl
      | cons c cs => simp [String.length] at hz

theorem list_find?_unique {α : Type} {p : α → Bool} {l : List α} {a : α}
    (hmem : a ∈ l) (hpa : p a = true) (huniq : ∀ b ∈ l, p b = true → b = a) :
    l.find? p = some a := by
  induction l with
  | nil => cases hmem
  | cons x xs ih =>
      by_cases hx : p x = true
      · have hxa : x = a := huniq x (List.mem_cons_self x xs) hx
        subst hxa
        simp [List.find?, hx]
      · have hxf : p x = false := by
          cases hpx : p x
          · rfl
          · exact absurd hpx hx
        simp only [List.find?, hxf]
        rcases List.mem_cons.mp hmem with hmem2 | hmem2
        · subst hmem2; exact absurd hpa hx
        · exact ih hmem2 (fun b hb hpb => huniq b (List.mem_cons_of_mem x hb) hpb)

/-! ### The ignore-columns transformation, characterised pointwise -/

theorem processRecord_cons (k₀ : String) (S' : List String) (item : PyDict) :
    processRecord (k₀ :: S') item =
      processRecord S'
        (if pyContains item k₀ then
          pySet (pyRemove item k₀) ("__" ++ k₀) ((pyGet item k₀).getD "")
        else item) := rfl

theorem processRecord_pyGet (S : List String) : ∀ (item : PyDict),
    (item.map Prod.fst).Nodup → S.Nodup →
    (∀ k ∈ S, pyContains item ("__" ++ k) = false) →
    (∀ k ∈ S, ("__" ++ k) ∉ S) →
    ∀ j, pyGet (processRecord S item) j = renameLookup S item j := by
  induction S with
  | nil =>
      intro item _ _ _ _ j
      simp [processRecord, renameLookup]
  | cons k₀ S' ih =>
      intro item hkeys hnd hfree hS j
      have hk₀S' : k₀ ∉ S' := (List.nodup_cons.mp hnd).1
      have hndS' : S'.Nodup := (List.nodup_cons.mp hnd).2
      have hfree₀ : pyContains item ("__" ++ k₀) = false := hfree k₀ (List.mem_cons_self _ _)
      have hS₀ : ("__" ++ k₀) ∉ k₀ :: S' := hS k₀ (List.mem_cons_self _ _)
      have htk₀ : ("__" ++ k₀) ≠ k₀ := string_ne_prefix_append "__" k₀ (by decide)
      have htS' : ("__" ++ k₀) ∉ S' := fun h => hS₀ (List.mem_cons_of_mem _ h)
      have hinj : ∀ a b : String, "__" ++ a = "__" ++ b → a = b :=
        fun a b h => string_append_left_cancel h
      have hF2 : ∀ k ∈ S', ("__" ++ k) ≠ k₀ := by
        intro k hk h
        exact (hS k (List.mem_cons_of_mem _ hk)) (by rw [h]; exact List.mem_cons_self _ _)
      have hfindS'_k₀ : S'.find? (fun k => ("__" ++ k) == k₀) = none := by
        rw [List.find?_eq_none]
        intro x hx
        simp only [beq_iff_eq]
        exact hF2 x hx
      have hfindS'_t : S'.find? (fun k => ("__" ++ k) == ("__" ++ k₀)) = none := by
        rw [List.find?_eq_none]
        intro x hx
        simp only [beq_iff_eq]
        intro h
        exact hk₀S' (hinj x k₀ h ▸ hx)
      have hS' : ∀ k ∈ S', ("__" ++ k) ∉ S' :=
        fun k hk h => (hS k (List.mem_cons_of_mem _ hk)) (List.mem_cons_of_mem _ h)
      by_cases hc : pyContains item k₀ = true
      · -- the key is present and is renamed
        obtain ⟨v, hv⟩ := pyGet_isSome_of_contains hc
        have hgetD : (pyGet item k₀).getD "" = v := by rw [hv]; rfl
        have hrw : (if pyContains item k₀ then
              pySet (pyRemove item k₀) ("__" ++ k₀) ((pyGet item k₀).getD "")
            else item) = pySet (pyRemove item k₀) ("__" ++ k₀) v := by
          rw [if_pos hc, hgetD]
        have hget_other : ∀ x, x ≠ ("__" ++ k₀) → x ≠ k₀ →
            pyGet (pySet (pyRemove item k₀) ("__" ++ k₀) v) x = pyGet item x := by
          intro x hx1 hx2
          rw [pyGet_pySet, if_neg hx1, pyGet_pyRemove _ _ _ hx2]
        have hget_t : pyGet (pySet (pyRemove item k₀) ("__" ++ k₀) v) ("__" ++ k₀) = some v := by
          rw [pyGet_pySet, if_pos rfl]
        have hget_k₀ : pyGet (pySet (pyRemove item k₀) ("__" ++ k₀) v) k₀ = none := by
          rw [pyGet_pySet, if_neg (fun h => htk₀ h.symm)]
          exact pyGet_pyRemove_self item k₀ hkeys
        have hkeys' : ((pySet (pyRemove item k₀) ("__" ++ k₀) v).map Prod.fst).Nodup :=
          keys_nodup_pySet (keys_nodup_pyRemove hkeys)
        have hfree' : ∀ k ∈ S',
            pyContains (pySet (pyRemove item k₀) ("__" ++ k₀) v) ("__" ++ k) = false := by
          intro k hk
          have hne1 : ("__" ++ k) ≠ ("__" ++ k₀) := fun h => hk₀S' (hinj k k₀ h ▸ hk)
          have hne2 : ("__" ++ k) ≠ k₀ := hF2 k hk
          rw [pyContains_eq_isSome, hget_other _ hne1 hne2, ← pyContains_eq_isSome]
          exact hfree k (List.mem_cons_of_mem _ hk)
        have hmain := ih (pySet (pyRemove item k₀) ("__" ++ k₀) v) hkeys' hndS' hfree' hS' j
        rw [processRecord_cons, hrw, hmain]
        by_cases hj1 : j = k₀
        · subst hj1
          simp only [renameLookup, if_neg hk₀S', hfindS'_k₀, Option.elim,
            if_pos (List.mem_cons_self j S')]
          exact hget_k₀
        · by_cases hj2 : j ∈ S'
          · simp only [renameLookup, if_pos hj2, if_pos (List.mem_cons_of_mem k₀ hj2)]
          · have hjcons : j ∉ k₀ :: S' := by
              intro h
              rcases List.mem_cons.mp h with h | h
              · exact hj1 h
              · exact hj2 h
            by_cases hjt : j = "__" ++ k₀
            · subst hjt
              have hfind_cons :
                  (k₀ :: S').find? (fun k => ("__" ++ k) == ("__" ++ k₀)) = some k₀ :=
                List.find?_cons_of_pos _ (by simp)
              simp only [renameLookup, if_neg hj2, if_neg hjcons, hfindS'_t, hfind_cons,
                Option.elim, if_pos hc]
              rw [hget_t, hv]
            · have hpred : ((fun k => ("__" ++ k) == j) k₀) = false := by
                simp only [beq_eq_false_iff_ne, ne_eq]
                exact fun h => hjt h.symm
              have hfind_cons : (k₀ :: S').find? (fun k => ("__" ++ k) == j)
                  = S'.find? (fun k => ("__" ++ k) == j) := by
                rw [List.find?_cons_of_neg _ (by simp only [hpred]; exact Bool.false_ne_true)]
              have hget_j : pyGet (pySet (pyRemove item k₀) ("__" ++ k₀) v) j = pyGet item j :=
                hget_other j hjt hj1
              cases hfind : S'.find? (fun k => ("__" ++ k) == j) with
              | none =>
                  simp only [renameLookup, if_neg hj2, if_neg hjcons, hfind_cons, hfind,
                    Option.elim]
                  exact hget_j
              | some k₁ =>
                  have hk₁S' : k₁ ∈ S' := List.mem_of_find?_eq_some hfind
                  have hk₁t : k₁ ≠ ("__" ++ k₀) := fun h => htS' (h ▸ hk₁S')
                  have hk₁k₀ : k₁ ≠ k₀ := fun h => hk₀S' (h ▸ hk₁S')
                  have hget_k₁ : pyGet (pySet (pyRemove item k₀) ("__" ++ k₀) v) k₁
                      = pyGet item k₁ := hget_other k₁ hk₁t hk₁k₀
                  have hcont_k₁ : pyContains (pySet (pyRemove item k₀) ("__" ++ k₀) v) k₁
                      = pyContains item k₁ := by
                    rw [pyContains_eq_isSome, hget_k₁, ← pyContains_eq_isSome]
                  simp only [renameLookup, if_neg hj2, if_neg hjcons, hfind_cons, hfind,
                    Option.elim, hcont_k₁, hget_k₁, hget_j]
      · -- the key is absent: this fold step leaves the record unchanged
        have hcf : pyContains item k₀ = false := by
          cases h : pyContains item k₀
          · rfl
          · exact absurd h hc
        have hrw : (if pyContains item k₀ then
              pySet (pyRemove item k₀) ("__" ++ k₀) ((pyGet item k₀).getD "")
            else item) = item := if_neg hc
        have hmain := ih item hkeys hndS'
          (fun k hk => hfree k (List.mem_cons_of_mem _ hk)) hS' j
        rw [processRecord_cons, hrw, hmain]
        by_cases hj1 : j = k₀
        · subst hj1
          simp only [renameLookup, if_neg hk₀S', hfindS'_k₀, Option.elim,
            if_pos (List.mem_cons_self j S')]
          exact pyGet_eq_none_of_not_contains hcf
        · by_cases hj2 : j ∈ S'
          · simp only [renameLookup, if_pos hj2, if_pos (List.mem_cons_of_mem k₀ hj2)]
          · have hjcons : j ∉ k₀ :: S' := by
              intro h
              rcases List.mem_cons.mp h with h | h
              · exact hj1 h
              · exact hj2 h
            by_cases hjt : j = "__" ++ k₀
            · subst hjt
              have hfind_cons :
                  (k₀ :: S').find? (fun k => ("__" ++ k) == ("__" ++ k₀)) = some k₀ :=
                List.find?_cons_of_pos _ (by simp)
              simp only [renameLookup, if_neg hj2, if_neg hjcons, hfindS'_t, hfind_cons,
                Option.elim, hcf]
              simp
            · have hpred : ((fun k => ("__" ++ k) == j) k₀) = false := by
                simp only [beq_eq_false_iff_ne, ne_eq]
                exact fun h => hjt h.symm
              have hfind_cons : (k₀ :: S').find? (fun k => ("__" ++ k) == j)
                  = S'.find? (fun k => ("__" ++ k) == j) := by
                rw [List.find?_cons_of_neg _ (by simp only [hpred]; exact Bool.false_ne_true)]
              simp only [renameLookup, if_neg hj2, if_neg hjcons, hfind_cons]

/-! ### Write sequences -/

theorem applyWrites_eq_lastWrite (ws : List (String × FileData)) :
    ∀ (fs : FS) (p : String),
      applyWrites ws fs p =
        match lastWrite ws p with
        | some d => some d
        | none => fs p := by
  induction ws with
  | nil => intro fs p; rfl
  | cons w ws ih =>
      intro fs p
      have hstep : applyWrites (w :: ws) fs = applyWrites ws (writeFile fs w.1 w.2) := rfl
      rw [hstep, ih]
      cases hlast : lastWrite ws p with
      | some d => simp [lastWrite, hlast]
      | none =>
          simp only [lastWrite, hlast]
          by_cases hp : w.1 = p
          · simp [writeFile, hp]
          · have hp2 : p ≠ w.1 := fun h => hp h.symm
            simp [writeFile, hp, hp2]

theorem pyGet_value_mem {m : PyDict} {p d : String} (h : pyGet m p = some d) :
    ∃ q ∈ m, q.2 = d := by
  induction m with
  | nil => cases h
  | cons q qs ih =>
      by_cases hq : q.1 = p
      · simp only [pyGet, beq_iff_eq, if_pos hq, Option.some.injEq] at h
        exact ⟨q, List.mem_cons_self _ _, h⟩
      · simp only [pyGet, beq_iff_eq, if_neg hq] at h
        obtain ⟨r, hr, hr2⟩ := ih h
        exact ⟨r, List.mem_cons_of_mem _ hr, hr2⟩

theorem defaultDriversMapping_value_ne_empty {p d : String}
    (h : pyGet defaultDriversMapping p = some d) : d ≠ "" := by
  obtain ⟨q, hq, hq2⟩ := pyGet_value_mem h
  have hvals : ∀ r ∈ defaultDriversMapping, r.2 ≠ "" := by decide
  exact hq2 ▸ hvals q hq

theorem waitLoop_error_none (ping : Nat → Bool) : ∀ (fuel t : Nat),
    (waitLoop ping fuel t).error = none := by
  intro fuel
  induction fuel with
  | zero => intro t; rfl
  | succ n ih =>
      intro t
      by_cases h : ping t = true
      · simp [waitLoop, h]
      · simp [waitLoop, h, ih]

theorem gdsGo_append_failure (spec : CommandSpec) (err : String)
    (post : List (CommandSpec × StepOutcome)) :
    ∀ (pre : List (CommandSpec × StepOutcome)) (acc : List CommandResult),
      (∀ x ∈ pre, stepSucceeds x.2 = true) →
      gdsGo (pre ++ (spec, StepOutcome.raise err) :: post) acc = HostOutcome.failure err := by
  intro pre
  induction pre with
  | nil => intro acc _; rfl
  | cons x pre ih =>
      intro acc hall
      obtain ⟨s, o⟩ := x
      have ho : stepSucceeds o = true := hall (s, o) (List.mem_cons_self _ _)
      cases o with
      | raise e => simp [stepSucceeds] at ho
      | ok t f parsed =>
          simp only [List.cons_append, gdsGo]
          exact ih _ (fun y hy => hall y (List.mem_cons_of_mem _ hy))

/-! ### The claims -/

/-- C1: the claim states that resolution for a platform absent from the
mapping falls back to the driver under the `"default"` key, failing only when
both entries are absent.  The code contradicts this (and its own comment
`if not available, get the default driver`): for `unknown_os`, absent from
the built-in mapping whose `"default"` entry is present, resolution raises
the driver-not-found exception without consulting `"default"`. -/
theorem c1_no_fallback_to_default_entry :
    pyGet defaultDriversMapping "unknown_os" = none
    ∧ pyGet defaultDriversMapping "default"
        = some "fluxus_netmikto_functions.drivers.default.NetboxNornirDriver"
    ∧ resolveDriver none "get_config" "unknown_os"
        = Except.error
            "Unable to find the driver for get_config for platform: unknown_os, preemptively failed." :=
  ⟨rfl, rfl, rfl⟩

/-- C2: `get_config` is a hard-failing read: authentication and timeout
transport failures raise typed errors, any other transport failure raises the
unknown-execution error, a successful send whose text contains the device
syntax-error marker raises the command-rejected error, and otherwise the
result payload is `{"config": text}`. -/
theorem c2_get_config_classification (platform : String) (transport : String → SendOutcome) :
    (∀ m o, transport (getConfigCommand platform) = SendOutcome.raises ExcKind.auth m o →
        get_config platform transport
          = Except.error (GetConfigErr.authError
              ("Failed with an authentication issue: `" ++ m ++ "`")))
    ∧ (∀ m o, transport (getConfigCommand platform) = SendOutcome.raises ExcKind.timeout m o →
        get_config platform transport
          = Except.error (GetConfigErr.timeoutError ("Failed with a timeout issue. `" ++ m ++ "`")))
    ∧ (∀ m o, transport (getConfigCommand platform) = SendOutcome.raises ExcKind.other m o →
        get_config platform transport
          = Except.error (GetConfigErr.unknownError ("Failed with an unknown issue. `" ++ m ++ "`")))
    ∧ (∀ t, transport (getConfigCommand platform) = SendOutcome.returns t false →
        pyInStr invalidMarker t = true →
        get_config platform transport
          = Except.error (GetConfigErr.commandRejected
              "Discovered `ERROR: % Invalid input detected at` in the output"))
    ∧ (∀ t, transport (getConfigCommand platform) = SendOutcome.returns t false →
        pyInStr invalidMarker t = false →
        get_config platform transport = Except.ok (GetConfigOk.config t)) := by
  refine ⟨?_, ?_, ?_, ?_, ?_⟩
  · intro m o h
    simp [get_config, h]
  · intro m o h
    simp [get_config, h]
  · intro m o h
    simp [get_config, h]
  · intro t h h2
    simp [get_config, h, h2]
  · intro t h h2
    simp [get_config, h, h2]

/-- C2 witness: concrete evaluations of all three interesting branches. -/
theorem c2_witness :
    get_config "cisco_ios" (fun _ => SendOutcome.raises ExcKind.auth "Authentication failed." "")
      = Except.error (GetConfigErr.authError
          ("Failed with an authentication issue: `" ++ "Authentication failed." ++ "`"))
    ∧ get_config "cisco_ios"
        (fun _ => SendOutcome.returns "ERROR: % Invalid input detected at marker" false)
      = Except.error (GetConfigErr.commandRejected
          "Discovered `ERROR: % Invalid input detected at` in the output")
    ∧ get_config "cisco_ios" (fun _ => SendOutcome.returns "hostname r1" false)
      = Except.ok (GetConfigOk.config "hostname r1") := by
  refine ⟨?_, ?_, ?_⟩
  · exact (c2_get_config_classification "cisco_ios" _).1 "Authentication failed." "" rfl
  · exact (c2_get_config_classification "cisco_ios" _).2.2.2.1
      "ERROR: % Invalid input detected at marker" rfl (by decide)
  · exact (c2_get_config_classification "cisco_ios" _).2.2.2.2 "hostname r1" rfl (by decide)

/-- C3: `deploy_config` is soft-failing: every transport failure class yields
the result `{"status": False, "error": message}` without raising, and a
successful batch send yields `{"status": True, "error": None}`. -/
theorem c3_deploy_config_soft_failure (config : String)
    (transport : List String → SendOutcome) :
    (∀ k m o, transport (pySplitlines config) = SendOutcome.raises k m o →
        deploy_config config transport = { status := false, error := some m })
    ∧ (∀ t f, transport (pySplitlines config) = SendOutcome.returns t f →
        deploy_config config transport = { status := true, error := none }) := by
  constructor
  · intro k m o h
    cases k <;> simp [deploy_config, h]
  · intro t f h
    simp [deploy_config, h]

/-- C3 witness: the spec scenario, an authentication failure during deploy. -/
theorem c3_witness :
    deploy_config "interface eth0\nno shutdown"
        (fun _ => SendOutcome.raises ExcKind.auth "Authentication to device failed." "")
      = { status := false, error := some "Authentication to device failed." } :=
  (c3_deploy_config_soft_failure "interface eth0\nno shutdown" _).1
    ExcKind.auth "Authentication to device failed." "" rfl

/-- C4: the state collector is fail-fast per host: when every command before
position `i` succeeds and the command at `i` raises, the host result is the
failure of that first raising command, independently of all later commands
(which are never examined). -/
theorem c4_fail_fast_per_host (pre : List (CommandSpec × StepOutcome)) (spec : CommandSpec)
    (err : String) (post : List (CommandSpec × StepOutcome))
    (hpre : ∀ x ∈ pre, stepSucceeds x.2 = true) :
    get_device_state (pre ++ (spec, StepOutcome.raise err) :: post) = HostOutcome.failure err :=
  gdsGo_append_failure spec err post pre [] hpre

/-- C4 witness: one succeeding command, one raising command, one command after
the failure that is never sent. -/
theorem c4_witness :
    get_device_state
        [(⟨"show version", []⟩, StepOutcome.ok "ver" false []),
         (⟨"show run", []⟩, StepOutcome.raise "boom"),
         (⟨"show ip route", []⟩, StepOutcome.ok "routes" false [])]
      = HostOutcome.failure "boom" :=
  c4_fail_fast_per_host [(⟨"show version", []⟩, StepOutcome.ok "ver" false [])]
    ⟨"show run", []⟩ "boom" [(⟨"show ip route", []⟩, StepOutcome.ok "routes" false [])]
    (by decide)

/-- C5: for a command whose send succeeds, the appended Command Result has a
non-null `structured` field exactly when parsing yielded at least one record
(an empty parse is stored as null), and its `unstructured` field always
retains the verbatim device text when the send did not fail. -/
theorem c5_structured_iff_nonempty_parse (spec : CommandSpec) (text : String) (failed : Bool)
    (parsed : List PyDict) (rest : List (CommandSpec × StepOutcome))
    (acc : List CommandResult) :
    gdsGo ((spec, StepOutcome.ok text failed parsed) :: rest) acc
      = gdsGo rest (acc ++ [mkCommandResult spec text failed parsed])
    ∧ ((mkCommandResult spec text failed parsed).structured ≠ none ↔ parsed ≠ [])
    ∧ (parsed = [] → (mkCommandResult spec text failed parsed).structured = none)
    ∧ (failed = false → (mkCommandResult spec text failed parsed).unstructured = some text) := by
  refine ⟨rfl, ?_, ?_, ?_⟩
  · cases parsed with
    | nil => simp [mkCommandResult, processStructured]
    | cons r rs => simp [mkCommandResult, processStructured]
  · intro h
    subst h
    simp [mkCommandResult, processStructured]
  · intro h
    subst h
    simp [mkCommandResult]

/-- C5 witness: the spec scenario, a command whose output no template matches
(empty parse): null `structured`, verbatim `unstructured`. -/
theorem c5_witness :
    (mkCommandResult ⟨"show version", []⟩ "raw text" false []).structured = none
    ∧ (mkCommandResult ⟨"show version", []⟩ "raw text" false []).unstructured = some "raw text" :=
  ⟨(c5_structured_iff_nonempty_parse ⟨"show version", []⟩ "raw text" false [] [] []).2.2.1 rfl,
   (c5_structured_iff_nonempty_parse ⟨"show version", []⟩ "raw text" false [] [] []).2.2.2 rfl⟩

/-- C6 counterexample: the claim promises that every key-value pair whose key
is not in `ignore_columns` is left unchanged and that no key is deleted, for
every record.  For a record that already contains the rename target
`__status`, `item["__status"] = item.pop("status")` overwrites the existing
pair: its value changes from `old` to `up` and the record shrinks from three
keys to two. -/
theorem c6_counterexample :
    processRecord ["status"] [("name", "eth0"), ("__status", "old"), ("status", "up")]
      = [("name", "eth0"), ("__status", "up")]
    ∧ pyGet [("name", "eth0"), ("__status", "old"), ("status", "up")] "__status" = some "old"
    ∧ ¬ pyGet (processRecord ["status"]
          [("name", "eth0"), ("__status", "old"), ("status", "up")]) "__status" = some "old"
    ∧ (processRecord ["status"] [("name", "eth0"), ("__status", "old"), ("status", "up")]).length
        = 2 := by
  decide

/-- C6 (amended): for every record with distinct keys and every
`ignore_columns` set `S` such that no rename target `"__" ++ k` (for `k ∈ S`)
already occurs among the record's keys or in `S` itself, the transformation
moves the value of each present `k ∈ S` to the key `"__" ++ k`, removes `k`,
and leaves the binding of every other key unchanged. -/
theorem c6_ignore_columns_rename (S : List String) (rec : PyDict)
    (hkeys : (rec.map Prod.fst).Nodup) (hnd : S.Nodup)
    (hfree : ∀ k ∈ S, pyContains rec ("__" ++ k) = false)
    (hS : ∀ k ∈ S, ("__" ++ k) ∉ S) :
    (∀ k ∈ S, pyContains rec k = true →
        pyGet (processRecord S rec) ("__" ++ k) = pyGet rec k
        ∧ pyGet (processRecord S rec) k = none)
    ∧ (∀ j, j ∉ S → (∀ k ∈ S, j ≠ "__" ++ k) →
        pyGet (processRecord S rec) j = pyGet rec j) := by
  constructor
  · intro k hk hc
    constructor
    · rw [processRecord_pyGet S rec hkeys hnd hfree hS ("__" ++ k)]
      have hfind : S.find? (fun k2 => ("__" ++ k2) == ("__" ++ k)) = some k := by
        apply list_find?_unique hk (by simp)
        intro b hb hpb
        simp only [beq_iff_eq] at hpb
        exact string_append_left_cancel hpb
      simp only [renameLookup, if_neg (hS k hk), hfind, Option.elim, if_pos hc]
    · rw [processRecord_pyGet S rec hkeys hnd hfree hS k]
      simp only [renameLookup, if_pos hk]
  · intro j hj hnot
    rw [processRecord_pyGet S rec hkeys hnd hfree hS j]
    have hfind : S.find? (fun k => ("__" ++ k) == j) = none := by
      rw [List.find?_eq_none]
      intro x hx
      simp only [beq_iff_eq]
      exact fun h => (hnot x hx) h.symm
    simp only [renameLookup, if_neg hj, hfind, Option.elim]

/-- C6 witness: the spec example `{"name": "eth0", "status": "up"}` with
`ignore_columns = {"status"}` becomes `{"name": "eth0", "__status": "up"}`. -/
theorem c6_witness :
    pyGet (processRecord ["status"] [("name", "eth0"), ("status", "up")]) "__status" = some "up"
    ∧ pyGet (processRecord ["status"] [("name", "eth0"), ("status", "up")]) "status" = none
    ∧ pyGet (processRecord ["status"] [("name", "eth0"), ("status", "up")]) "name" = some "eth0" := by
  have h := c6_ignore_columns_rename ["status"] [("name", "eth0"), ("status", "up")]
    (by decide) (by decide) (by decide) (by decide)
  refine ⟨?_, ?_, ?_⟩
  · exact ((h.1 "status" (by decide) (by decide)).1).trans (by decide)
  · exact (h.1 "status" (by decide) (by decide)).2
  · exact (h.2 "name" (by decide) (by decide)).trans (by decide)

/-- C7: once the driver is resolved, dispatch fails with the
method-not-found error when the named capability is absent; on a sub-task
failure it fails with the sub-task error whose summary is the last line of
the sub-task's reported output; otherwise it passes the driver's result
through unchanged (with a null error). -/
theorem c7_dispatch_behaviour (α : Type) (overrides : Option PyDict)
    (platform method : String) (methods : List String) (runOutcome : SubtaskOutcome α)
    (d : String) (hres : resolveDriver overrides method platform = Except.ok d) :
    (method ∉ methods →
        dispatcher α overrides platform methods method runOutcome
          = Except.error (DispatchErr.methodNotFound
              ("Unable to locate the method " ++ method ++ " for " ++ d
                ++ ", preemptively failed.")))
    ∧ (∀ out lastLine, runOutcome = SubtaskOutcome.raises out →
        (pySplitlines out).getLast? = some lastLine →
        method ∈ methods →
        dispatcher α overrides platform methods method runOutcome
          = Except.error (DispatchErr.subtaskFailed ("Subtask failed: " ++ lastLine)))
    ∧ (∀ r, runOutcome = SubtaskOutcome.returns r →
        method ∈ methods →
        dispatcher α overrides platform methods method runOutcome
          = Except.ok { result := some r, error := none }) := by
  refine ⟨?_, ?_, ?_⟩
  · intro hm
    simp [dispatcher, hres, hm]
  · intro out lastLine h1 h2 hm
    simp [dispatcher, hres, hm, h1, h2]
  · intro r h1 hm
    simp [dispatcher, hres, hm, h1]

/-- C7 witness: a missing capability, a failing sub-task with a two-line
output, and a passed-through result, all against the `cisco_ios` driver. -/
theorem c7_witness :
    dispatcher Nat none "cisco_ios"
        ["get_config", "deploy_config", "wait_until_reachable", "reload_device"]
        "frobnicate" (SubtaskOutcome.returns 0)
      = Except.error (DispatchErr.methodNotFound
          ("Unable to locate the method " ++ "frobnicate" ++ " for "
            ++ "fluxus_netmikto_functions.drivers.cisco_ios.NetboxNornirDriver"
            ++ ", preemptively failed."))
    ∧ dispatcher Nat none "cisco_ios" ["get_config"] "get_config"
        (SubtaskOutcome.raises "Traceback line one\nNetmikoTimeoutException: timed out")
      = Except.error (DispatchErr.subtaskFailed
          ("Subtask failed: " ++ "NetmikoTimeoutException: timed out"))
    ∧ dispatcher Nat none "cisco_ios" ["get_config"] "get_config" (SubtaskOutcome.returns 7)
      = Except.ok { result := some 7, error := none } := by
  refine ⟨?_, ?_, ?_⟩
  · exact (c7_dispatch_behaviour Nat none "cisco_ios" "frobnicate" _ _ _ rfl).1 (by decide)
  · exact (c7_dispatch_behaviour Nat none "cisco_ios" "get_config" _ _ _ rfl).2.1
      "Traceback line one\nNetmikoTimeoutException: timed out"
      "NetmikoTimeoutException: timed out" rfl (by decide) (by decide)
  · exact (c7_dispatch_behaviour Nat none "cisco_ios" "get_config" _ _ _ rfl).2.2
      7 rfl (by decide)

/-- C8 counterexample: `wait_until_reachable`, one of the operations the
claim ranges over, builds `{"status": False}` with no error key on timeout —
a terminal failure whose error is null, violating the claimed invariant. -/
theorem c8_counterexample :
    wait_until_reachable (fun _ => false) 30 = { status := false, error := none }
    ∧ ¬ invariantSE false none :=
  ⟨rfl, fun h => h.2 rfl rfl⟩

/-- C8 (amended): the status/error invariant (true status implies null error,
surfaced terminal failure implies non-null error) holds for `deploy_config`,
`reload_device`, `sub_collect_device_configuration` and `get_device_state`;
`wait_until_reachable` satisfies only the first half, since its results never
carry an error field. -/
theorem c8_status_error_invariant :
    (∀ (config : String) (transport : List String → SendOutcome),
        invariantSE (deploy_config config transport).status
          (deploy_config config transport).error)
    ∧ (∀ o : ReloadOutcome, invariantSE (reload_device o).status (reload_device o).error)
    ∧ (∀ (o : CollectOutcome) (r : CollectResult),
        sub_collect_device_configuration o = Except.ok r → invariantSE r.status r.error)
    ∧ (∀ (items : List (CommandSpec × StepOutcome)) (p : Bool × Option String),
        hostStatusError (get_device_state items) = some p → invariantSE p.1 p.2)
    ∧ (∀ (ping : Nat → Bool) (timeout : Nat),
        (wait_until_reachable ping timeout).error = none) := by
  refine ⟨?_, ?_, ?_, ?_, ?_⟩
  · intro config transport
    cases h : transport (pySplitlines config) with
    | raises k m o => cases k <;> simp [deploy_config, h, invariantSE]
    | returns t f => simp [deploy_config, h, invariantSE]
  · intro o
    cases o <;> simp [reload_device, invariantSE]
  · intro o r h
    cases o with
    | got res =>
        cases hb : pyTruthy (pyGet res "config") with
        | true =>
            simp only [sub_collect_device_configuration, hb, if_true, Except.ok.injEq] at h
            subst h
            simp [invariantSE]
        | false =>
            cases he : pyGet res "error" with
            | some e =>
                simp [sub_collect_device_configuration, hb, he] at h
                subst h
                simp [invariantSE]
            | none =>
                simp [sub_collect_device_configuration, hb, he] at h
                subst h
                simp [invariantSE]
    | subtaskErr e => simp [sub_collect_device_configuration] at h
    | otherExc m =>
        simp only [sub_collect_device_configuration, Except.ok.injEq] at h
        subst h
        simp [invariantSE]
  · intro items p h
    cases hout : get_device_state items with
    | success l => rw [hout] at h; simp [hostStatusError] at h
    | failure e =>
        rw [hout] at h
        simp only [hostStatusError, Option.some.injEq] at h
        subst h
        simp [invariantSE]
  · intro ping timeout
    exact waitLoop_error_none ping timeout 0

/-- C8 witness: a concrete failed deployment carries a non-null error. -/
theorem c8_witness :
    (deploy_config "interface eth0"
        (fun _ => SendOutcome.raises ExcKind.timeout "timed out" "")).error ≠ none :=
  (c8_status_error_invariant.1 "interface eth0"
    (fun _ => SendOutcome.raises ExcKind.timeout "timed out" "")).2 rfl

/-- C9: the result sink is idempotent: running the persistence loop twice
over the same fleet result leaves every path with the same final content as
one run (writes overwrite existing files of the same name; in the path-keyed
filesystem model no duplicate files can arise). -/
theorem c9_persist_idempotent (folder : String)
    (fleet : List (String × List CommandResult)) (fs : FS) :
    (∀ p, persist folder fleet (persist folder fleet fs) p = persist folder fleet fs p)
    ∧ (∀ (fs2 : FS) (p : String) (d : FileData), writeFile fs2 p d p = some d) := by
  constructor
  · intro p
    have h1 := applyWrites_eq_lastWrite (fleetWrites folder fleet)
      (applyWrites (fleetWrites folder fleet) fs) p
    have h2 := applyWrites_eq_lastWrite (fleetWrites folder fleet) fs p
    simp only [persist]
    rw [h1, h2]
    cases hl : lastWrite (fleetWrites folder fleet) p <;> simp
  · intro fs2 p d
    simp [writeFile]

/-- C10: a supplied but empty (falsy) overrides mapping is ignored: the
built-in mapping is used, so a platform present in the built-in table still
resolves to its built-in driver exactly as with no overrides at all. -/
theorem c10_empty_overrides_ignored (method p d : String)
    (h : pyGet defaultDriversMapping p = some d) :
    resolveDriver (some []) method p = Except.ok d
    ∧ resolveDriver none method p = Except.ok d := by
  have hne : d ≠ "" := defaultDriversMapping_value_ne_empty h
  constructor
  · simp [resolveDriver, effectiveMapping, h, hne]
  · simp [resolveDriver, effectiveMapping, h, hne]

/-- C10 witness: `cisco_ios` resolves to its built-in driver under an empty
overrides mapping. -/
theorem c10_witness :
    resolveDriver (some []) "get_config" "cisco_ios"
        = Except.ok "fluxus_netmikto_functions.drivers.cisco_ios.NetboxNornirDriver"
    ∧ resolveDriver none "get_config" "cisco_ios"
        = Except.ok "fluxus_netmikto_functions.drivers.cisco_ios.NetboxNornirDriver" :=
  c10_empty_overrides_ignored "get_config" "cisco_ios"
    "fluxus_netmikto_functions.drivers.cisco_ios.NetboxNornirDriver" rfl

end Fluxus
